import Mathlib

/-!
Shallow embedding of `network/RestRequest.py` from the Documentum REST client:
the `RestRequest` fluent builder and the `RestResponse` wrapper.  The HTTP
transport (`requests.request`) and the JSON decoder (`response.json()`) are
external collaborators and appear as function parameters; everything else is
translated line by line from the source.  Python exceptions become the
`Except` monad, Python `None` becomes `Option.none`, and Python dictionaries
of headers become association lists in insertion order (all keys inserted by
the source are pairwise distinct, so `dict.update` is list append).
-/

/-- JSON values, the output type of the external JSON decoder. -/
inductive Json where
  | null
  | bool (b : Bool)
  | num (n : Int)
  | str (s : String)
  | arr (xs : List Json)
  | obj (fields : List (String × Json))

/-- `model.Resource`: external collaborator; `resource()` builds it as
`Resource.Resource(self.response.json())`, wrapping the parsed JSON body. -/
structure Resource where
  body : Json

/-- UTF-8 encoding of one character, as in Python's `str.encode("utf-8")`. -/
def utf8Bytes (c : Char) : List Nat :=
  let n := c.toNat
  if n < 128 then [n]
  else if n < 2048 then [192 + n / 64, 128 + n % 64]
  else if n < 65536 then [224 + n / 4096, 128 + n / 64 % 64, 128 + n % 64]
  else [240 + n / 262144, 128 + n / 4096 % 64, 128 + n / 64 % 64, 128 + n % 64]

/-- UTF-8 byte sequence of a string. -/
def strUtf8 (s : String) : List Nat := s.data.flatMap utf8Bytes

/-- The base64 alphabet. -/
def base64Alphabet : List Char :=
  "ABCDEFGHIJKLMNOPQRSTUVWXYZabcdefghijklmnopqrstuvwxyz0123456789+/".toList

/-- The base64 digit for a 6-bit value. -/
def b64Digit (n : Nat) : Char := base64Alphabet.getD n 'A'

/-- Standard base64 encoding of a byte list, with `=` padding. -/
def base64EncodeBytes : List Nat → List Char
  | [] => []
  | [a] => [b64Digit (a / 4), b64Digit (a % 4 * 16), '=', '=']
  | [a, b] => [b64Digit (a / 4), b64Digit (a % 4 * 16 + b / 16), b64Digit (b % 16 * 4), '=']
  | a :: b :: c :: rest =>
      b64Digit (a / 4) :: b64Digit (a % 4 * 16 + b / 16) ::
        b64Digit (b % 16 * 4 + c / 64) :: b64Digit (c % 64) :: base64EncodeBytes rest

/-- Python's `base64.b64encode(s.encode("utf-8")).decode("utf-8")`. -/
def b64encode (s : String) : String := String.mk (base64EncodeBytes (strUtf8 s))

/-- URL query parameters (`params`), an opaque key-value mapping. -/
abbrev Params := List (String × String)

/-- The multipart file set (`files`); Python accepts a mapping, so a
key-value list; a non-empty one is truthy and triggers multipart mode. -/
abbrev Files := List (String × String)

/-- Header mapping handed to the transport.  A `none` value models Python
`None` stored under the key (the source stores `self.content_type` and
`self.accept_type` unconditionally, which may be `None`). -/
abbrev Headers := List (String × Option String)

/-- An HTTP response as the client sees it: `status_code` and raw body
bytes `content` (bytes kept abstract as a string). -/
structure HttpResponse where
  status_code : Nat
  content : String
deriving DecidableEq

/-- `HTTP_VERBS` from the source. -/
def HTTP_VERBS : List String :=
  ["delete", "get", "head", "options", "patch", "post", "put", "trace"]

def HTTP_STATUS_OK : Nat := 200
def HTTP_STATUS_CREATED : Nat := 201
def HTTP_STATUS_NO_CONTENT : Nat := 204
def HTTP_HEADER_ACCEPT : String := "accept"
def HTTP_HEADER_CONTENT_TYPE : String := "content-type"

/-- The builder state: exactly the fields `__init__` sets.  Every field
except `href` starts as Python `None`. -/
structure RestRequest where
  href : String
  verb : Option String := none
  user : Option String := none
  pwd : Option String := none
  params : Option Params := none
  data : Option String := none
  files : Option Files := none
  accept_type : Option String := none
  content_type : Option String := none
deriving DecidableEq

/-- `RestRequest(href)`. -/
def RestRequest.init (href : String) : RestRequest := { href := href }

/-- The exceptions the embedded code can raise. -/
inductive ReqError where
  /-- `AttributeError(name)` raised by `__getattr__` for a non-verb name. -/
  | unknownOperation (name : String)
  /-- `AttributeError` raised by `self.verb.upper()` in `request` when
  `verb` is still `None`. -/
  | verbNone
  /-- `ValueError` raised by `get_basic_authn_header` when `user` or `pwd`
  is falsy ("login name or password is invalid."). -/
  | authError
  /-- `Exception(response.content)` raised by `check_return_code`. -/
  | requestFailed (content : String)
deriving DecidableEq

/-- Python truthiness of an optional string: `None` and `""` are falsy. -/
def truthyStr : Option String → Bool
  | none => false
  | some s => s != ""

/-- Python truthiness of the `files` field: `None` and an empty mapping
are falsy (`if self.files`). -/
def truthyFiles : Option Files → Bool
  | none => false
  | some l => !l.isEmpty

/-- `auth(user, pwd)`: store both credentials; no validation here. -/
def RestRequest.auth (r : RestRequest) (user pwd : String) : RestRequest :=
  { r with user := some user, pwd := some pwd }

/-- `accept(media_type)`: store the accept media type. -/
def RestRequest.accept (r : RestRequest) (media_type : String) : RestRequest :=
  { r with accept_type := some media_type }

/-- `as_(media_type)`: store the content media type. -/
def RestRequest.as_ (r : RestRequest) (media_type : String) : RestRequest :=
  { r with content_type := some media_type }

/-- `_is_verb(name)`. -/
def is_verb (name : String) : Bool := HTTP_VERBS.contains name

/-- `__getattr__(name)`: a verb name sets `verb` and returns the builder;
any other name raises `AttributeError(name)`. -/
def RestRequest.getattr (r : RestRequest) (name : String) : Except ReqError RestRequest :=
  if is_verb name then Except.ok { r with verb := some name }
  else Except.error (ReqError.unknownOperation name)

/-- `get_basic_authn_header`: raise unless both credentials are truthy,
else the single Authorization entry. -/
def RestRequest.get_basic_authn_header (r : RestRequest) : Except ReqError Headers :=
  if !truthyStr r.user || !truthyStr r.pwd then
    Except.error ReqError.authError
  else
    Except.ok [("Authorization",
      some ("Basic " ++ b64encode (r.user.getD "" ++ ":" ++ r.pwd.getD "")))]

/-- `_is_multipart_request`. -/
def RestRequest.is_multipart_request (r : RestRequest) : Bool :=
  truthyFiles r.files

/-- `_get_content_header`: empty in multipart mode; otherwise the
`content-type` entry holding the stored value.  The `hasattr` guard inside
is always true because `__init__` sets the attribute (possibly to `None`),
so the trailing empty-dict return is dead code. -/
def RestRequest.get_content_header (r : RestRequest) : Headers :=
  if r.is_multipart_request then [] else [(HTTP_HEADER_CONTENT_TYPE, r.content_type)]

/-- `_get_accept_header`: the `accept` entry holding the stored value. -/
def RestRequest.get_accept_header (r : RestRequest) : Headers :=
  [(HTTP_HEADER_ACCEPT, r.accept_type)]

/-- `prepare_headers`: Authorization first, then the content entry, then
the accept entry.  Both `hasattr(self, ...)` guards are always true after
`__init__`; the three keys are pairwise distinct so the two `dict.update`
calls are appends. -/
def RestRequest.prepare_headers (r : RestRequest) : Except ReqError Headers :=
  match r.get_basic_authn_header with
  | Except.error e => Except.error e
  | Except.ok headers =>
      Except.ok (headers ++ r.get_content_header ++ r.get_accept_header)

/-- The arguments of the one transport invocation `requests.request(...)`:
verb, URL, headers, query params, and either `data` (regular mode) or
`files` (multipart mode), never both. -/
structure DispatchedCall where
  verb : String
  url : String
  headers : Headers
  params : Option Params
  data : Option String
  files : Option Files
deriving DecidableEq

/-- The transport collaborator: turns the dispatched call into a response. -/
abbrev Transport := DispatchedCall → HttpResponse

/-- The straight-line prefix of `request` before the transport call: the
debug line evaluates `self.verb.upper()` eagerly (so an unset verb raises
first), then `prepare_headers`, then the multipart/regular branch fixes
the call arguments. -/
def RestRequest.build_dispatch (r : RestRequest) : Except ReqError DispatchedCall :=
  match r.verb with
  | none => Except.error ReqError.verbNone
  | some v =>
     match r.prepare_headers with
     | Except.error e => Except.error e
     | Except.ok headers =>
        if r.is_multipart_request then
          Except.ok ⟨v, r.href, headers, r.params, none, r.files⟩
        else
          Except.ok ⟨v, r.href, headers, r.params, r.data, none⟩

/-- `check_return_code(response)`: three sequential verb-specific status
checks, each raising `Exception(response.content)` on mismatch. -/
def check_return_code (verb : String) (rsp : HttpResponse) : Except ReqError Unit :=
  let code := rsp.status_code
  if verb == "get" && !(code == HTTP_STATUS_OK) then
    Except.error (ReqError.requestFailed rsp.content)
  else if verb == "post" && !(code == HTTP_STATUS_OK) && !(code == HTTP_STATUS_CREATED) then
    Except.error (ReqError.requestFailed rsp.content)
  else if verb == "delete" && !(code == HTTP_STATUS_NO_CONTENT) then
    Except.error (ReqError.requestFailed rsp.content)
  else
    Except.ok ()

/-- `RestResponse`: wraps one received HTTP response. -/
structure RestResponse where
  response : HttpResponse
deriving DecidableEq

/-- `request()`: build the dispatch, run the transport once, classify the
status code, and wrap the raw response. -/
def RestRequest.request (transport : Transport) (r : RestRequest) :
    Except ReqError RestResponse :=
  match r.build_dispatch with
  | Except.error e => Except.error e
  | Except.ok d =>
      match check_return_code d.verb (transport d) with
      | Except.error e => Except.error e
      | Except.ok _ => Except.ok ⟨transport d⟩

/-- `__call__(data, files, params)`: store the three optional arguments in
the builder, then `request`. -/
def RestRequest.call (transport : Transport) (r : RestRequest)
    (data : Option String) (files : Option Files) (params : Option Params) :
    Except ReqError RestResponse :=
  RestRequest.request transport { r with data := data, files := files, params := params }

/-- The error `response.json()` raises on a body that is not valid JSON. -/
inductive ParseFailure where
  | parseError
deriving DecidableEq

/-- `resource()`: a non-empty body (`len(content) is not 0`; CPython
interns small integers, so the identity test is a length test) is decoded
by the external JSON decoder and wrapped in a `Resource`; a failing decode
is the `ValueError` of `response.json()`; an empty body yields `None`. -/
def RestResponse.resource (parse : String → Option Json) (rr : RestResponse) :
    Except ParseFailure (Option Resource) :=
  if rr.response.content.length ≠ 0 then
    match parse rr.response.content with
    | some j => Except.ok (some ⟨j⟩)
    | none => Except.error ParseFailure.parseError
  else
    Except.ok none

/-- `status()`. -/
def RestResponse.status (rr : RestResponse) : Nat := rr.response.status_code

/-- A transport stub returning one fixed response, for concrete runs. -/
def constTransport (rsp : HttpResponse) : Transport := fun _ => rsp

/-- The status-rejection table as one boolean predicate over (verb, code). -/
def rejectsStatus (verb : String) (code : Nat) : Bool :=
  (verb == "get" && !(code == 200)) ||
  (verb == "post" && !(code == 200) && !(code == 201)) ||
  (verb == "delete" && !(code == 204))

theorem rejectsStatus_iff (v : String) (code : Nat) :
    rejectsStatus v code = true ↔
      (v = "get" ∧ code ≠ 200) ∨
      (v = "post" ∧ code ≠ 200 ∧ code ≠ 201) ∨
      (v = "delete" ∧ code ≠ 204) := by
  simp [rejectsStatus, and_assoc, or_assoc]

/-- The sequential raise-on-mismatch checks collapse to one test of the
rejection table. -/
theorem check_return_code_eq (v : String) (rsp : HttpResponse) :
    check_return_code v rsp =
      if rejectsStatus v rsp.status_code then
        Except.error (ReqError.requestFailed rsp.content)
      else Except.ok () := by
  by_cases hA : (v == "get" && !(rsp.status_code == 200)) = true <;>
    by_cases hB : (v == "post" && !(rsp.status_code == 200) && !(rsp.status_code == 201)) = true <;>
      by_cases hC : (v == "delete" && !(rsp.status_code == 204)) = true <;>
        simp [check_return_code, rejectsStatus,
          HTTP_STATUS_OK, HTTP_STATUS_CREATED, HTTP_STATUS_NO_CONTENT, hA, hB, hC]

/-- `request` after a successful dispatch build is the transport response,
classified by the rejection table. -/
theorem request_eq_of_build (r : RestRequest) (transport : Transport)
    (d : DispatchedCall) (hd : r.build_dispatch = Except.ok d) :
    RestRequest.request transport r =
      if rejectsStatus d.verb (transport d).status_code then
        Except.error (ReqError.requestFailed (transport d).content)
      else Except.ok ⟨transport d⟩ := by
  simp only [RestRequest.request, hd, check_return_code_eq]
  cases hb : rejectsStatus d.verb (transport d).status_code <;> simp [hb]

/-- Successful dispatch builds are exactly: a set verb, headers prepared
without error, and the multipart/regular argument choice. -/
theorem build_dispatch_ok_iff (r : RestRequest) (d : DispatchedCall) :
    r.build_dispatch = Except.ok d ↔
      ∃ v hdr, r.verb = some v ∧ r.prepare_headers = Except.ok hdr ∧
        ((r.is_multipart_request = true ∧
            d = ⟨v, r.href, hdr, r.params, none, r.files⟩) ∨
         (r.is_multipart_request = false ∧
            d = ⟨v, r.href, hdr, r.params, r.data, none⟩)) := by
  unfold RestRequest.build_dispatch
  cases hv : r.verb with
  | none => simp
  | some v =>
    cases hh : r.prepare_headers with
    | error e => simp
    | ok hdr =>
      by_cases hm : r.is_multipart_request = true
      · simp [hm, eq_comm]
      · rw [Bool.not_eq_true] at hm
        simp [hm, eq_comm]

/-- Prepared headers are exactly: both credentials truthy, and the
Authorization, content and accept entries in order. -/
theorem prepare_headers_ok_iff (r : RestRequest) (hdr : Headers) :
    r.prepare_headers = Except.ok hdr ↔
      truthyStr r.user = true ∧ truthyStr r.pwd = true ∧
      hdr = [("Authorization",
              some ("Basic " ++ b64encode (r.user.getD "" ++ ":" ++ r.pwd.getD "")))]
            ++ r.get_content_header ++ r.get_accept_header := by
  unfold RestRequest.prepare_headers RestRequest.get_basic_authn_header
  cases hu : truthyStr r.user <;> cases hp : truthyStr r.pwd <;> simp [eq_comm]

/-- With a set verb and a falsy credential, the dispatch build and the whole
request raise the credential error, for every transport. -/
theorem build_dispatch_auth_error (r : RestRequest) (v : String) (hv : r.verb = some v)
    (hc : truthyStr r.user = false ∨ truthyStr r.pwd = false) :
    r.build_dispatch = Except.error ReqError.authError ∧
    ∀ transport : Transport,
      RestRequest.request transport r = Except.error ReqError.authError := by
  have hh : r.prepare_headers = Except.error ReqError.authError := by
    unfold RestRequest.prepare_headers RestRequest.get_basic_authn_header
    rcases hc with h | h <;> simp [h]
  have hb : r.build_dispatch = Except.error ReqError.authError := by
    unfold RestRequest.build_dispatch
    rw [hv, hh]
  exact ⟨hb, fun transport => by unfold RestRequest.request; rw [hb]⟩

/-- C1: for every executed request, the status code is classified by verb:
GET raises `requestFailed` with the raw body exactly when the status is not
200; POST exactly when it is neither 200 nor 201; DELETE exactly when it is
not 204; any other verb accepts every status and the raw response is wrapped
and returned. -/
theorem c1_status_code_classification (r : RestRequest) (transport : Transport)
    (d : DispatchedCall) (hd : r.build_dispatch = Except.ok d) :
    (RestRequest.request transport r =
        Except.error (ReqError.requestFailed (transport d).content) ↔
      (d.verb = "get" ∧ (transport d).status_code ≠ 200) ∨
      (d.verb = "post" ∧ (transport d).status_code ≠ 200 ∧ (transport d).status_code ≠ 201) ∨
      (d.verb = "delete" ∧ (transport d).status_code ≠ 204)) ∧
    (¬ ((d.verb = "get" ∧ (transport d).status_code ≠ 200) ∨
        (d.verb = "post" ∧ (transport d).status_code ≠ 200 ∧ (transport d).status_code ≠ 201) ∨
        (d.verb = "delete" ∧ (transport d).status_code ≠ 204)) →
      RestRequest.request transport r = Except.ok ⟨transport d⟩) := by
  have hq := request_eq_of_build r transport d hd
  have hiff := rejectsStatus_iff d.verb (transport d).status_code
  by_cases hb : rejectsStatus d.verb (transport d).status_code = true
  · rw [if_pos hb] at hq
    have hP := hiff.mp hb
    exact ⟨iff_of_true hq hP, fun hp => absurd hP hp⟩
  · rw [if_neg hb] at hq
    have hnp : ¬ ((d.verb = "get" ∧ (transport d).status_code ≠ 200) ∨
        (d.verb = "post" ∧ (transport d).status_code ≠ 200 ∧ (transport d).status_code ≠ 201) ∨
        (d.verb = "delete" ∧ (transport d).status_code ≠ 204)) :=
      fun hp => hb (hiff.mpr hp)
    refine ⟨iff_of_false (fun h => ?_) hnp, fun _ => hq⟩
    rw [hq] at h
    exact Except.noConfusion h

def c1Builder : RestRequest :=
  { RestRequest.init "http://h" with
      verb := some "get", user := some "alice", pwd := some "secret" }

def c1Call : DispatchedCall :=
  ⟨"get", "http://h",
   [("Authorization", some ("Basic " ++ b64encode "alice:secret")),
    ("content-type", none), ("accept", none)],
   none, none, none⟩

theorem c1_witness :
    RestRequest.request (constTransport ⟨404, "oops"⟩) c1Builder =
      Except.error (ReqError.requestFailed "oops") :=
  (c1_status_code_classification c1Builder (constTransport ⟨404, "oops"⟩) c1Call
      rfl).1.mpr (Or.inl ⟨rfl, by decide⟩)

/-- C2: whenever execution accepts the credentials (both set and non-empty),
the Authorization header value is literally the string Basic followed by the
base64 encoding of user, a colon, and password, and that entry is present in
every dispatched request. -/
theorem c2_basic_auth_header (user pwd : String) (hu : user ≠ "") (hp : pwd ≠ "")
    (r : RestRequest) (hru : r.user = some user) (hrp : r.pwd = some pwd)
    (d : DispatchedCall) (hd : r.build_dispatch = Except.ok d) :
    r.get_basic_authn_header =
      Except.ok [("Authorization", some ("Basic " ++ b64encode (user ++ ":" ++ pwd)))] ∧
    ("Authorization", some ("Basic " ++ b64encode (user ++ ":" ++ pwd))) ∈ d.headers := by
  have hhdr : r.get_basic_authn_header =
      Except.ok [("Authorization", some ("Basic " ++ b64encode (user ++ ":" ++ pwd)))] := by
    simp [RestRequest.get_basic_authn_header, hru, hrp, truthyStr, hu, hp]
  refine ⟨hhdr, ?_⟩
  obtain ⟨v, hdr, hv, hh, hcase⟩ := (build_dispatch_ok_iff r d).mp hd
  obtain ⟨_, _, hl⟩ := (prepare_headers_ok_iff r hdr).mp hh
  have hdh : d.headers = hdr := by
    rcases hcase with ⟨_, hdis⟩ | ⟨_, hdis⟩ <;> rw [hdis]
  rw [hdh, hl, hru, hrp]
  simp

def c2Builder : RestRequest :=
  { RestRequest.init "http://h" with
      verb := some "put", user := some "alice", pwd := some "secret" }

def c2Call : DispatchedCall :=
  ⟨"put", "http://h",
   [("Authorization", some ("Basic " ++ b64encode "alice:secret")),
    ("content-type", none), ("accept", none)],
   none, none, none⟩

theorem c2_witness :
    c2Builder.get_basic_authn_header =
      Except.ok [("Authorization", some ("Basic " ++ b64encode ("alice" ++ ":" ++ "secret")))] ∧
    ("Authorization", some ("Basic " ++ b64encode ("alice" ++ ":" ++ "secret"))) ∈ c2Call.headers :=
  c2_basic_auth_header "alice" "secret" (by decide) (by decide) c2Builder rfl rfl
    c2Call rfl

/-- C3: a builder with a selected verb whose credentials were never set
raises the credential error at execution, before any HTTP dispatch (the
result is the same for every transport and the dispatch build itself already
fails), regardless of all other configuration. -/
theorem c3_missing_credentials (r : RestRequest) (v : String) (hv : r.verb = some v)
    (hc : r.user = none ∨ r.pwd = none) (transport : Transport) :
    RestRequest.request transport r = Except.error ReqError.authError ∧
    r.build_dispatch = Except.error ReqError.authError := by
  have hc2 : truthyStr r.user = false ∨ truthyStr r.pwd = false := by
    rcases hc with h | h
    · exact Or.inl (by rw [h]; rfl)
    · exact Or.inr (by rw [h]; rfl)
  obtain ⟨hb, hreq⟩ := build_dispatch_auth_error r v hv hc2
  exact ⟨hreq transport, hb⟩

theorem c3_witness :
    RestRequest.request (constTransport ⟨200, ""⟩)
      { RestRequest.init "http://h" with verb := some "get" } =
    Except.error ReqError.authError :=
  (c3_missing_credentials { RestRequest.init "http://h" with verb := some "get" }
    "get" rfl (Or.inl rfl) (constTransport ⟨200, ""⟩)).1

/-- C4: in multipart mode (a truthy `files` field) the dispatched call
carries no content-type entry at all, even when a content type was
configured, and it carries the files in place of the payload. -/
theorem c4_multipart_suppresses_content_type (r : RestRequest)
    (hm : r.is_multipart_request = true) (d : DispatchedCall)
    (hd : r.build_dispatch = Except.ok d) :
    (∀ val, (HTTP_HEADER_CONTENT_TYPE, val) ∉ d.headers) ∧
    d.files = r.files ∧ d.data = none := by
  obtain ⟨v, hdr, hv, hh, hcase⟩ := (build_dispatch_ok_iff r d).mp hd
  obtain ⟨_, _, hl⟩ := (prepare_headers_ok_iff r hdr).mp hh
  rcases hcase with ⟨_, hdis⟩ | ⟨hm2, _⟩
  · subst hdis
    refine ⟨?_, rfl, rfl⟩
    intro val hmem
    rw [hl] at hmem
    simp [RestRequest.get_content_header, RestRequest.get_accept_header, hm,
      HTTP_HEADER_CONTENT_TYPE, HTTP_HEADER_ACCEPT] at hmem
  · rw [hm] at hm2; exact absurd hm2 (by simp)

def c4Builder : RestRequest :=
  { RestRequest.init "http://h" with
      verb := some "post", user := some "a", pwd := some "b",
      content_type := some "application/json",
      files := some [("file1", "data1")] }

def c4Call : DispatchedCall :=
  ⟨"post", "http://h",
   [("Authorization", some ("Basic " ++ b64encode "a:b")), ("accept", none)],
   none, none, some [("file1", "data1")]⟩

theorem c4_witness :
    (HTTP_HEADER_CONTENT_TYPE, some "application/json") ∉ c4Call.headers ∧
    c4Call.files = c4Builder.files ∧ c4Call.data = none :=
  ⟨(c4_multipart_suppresses_content_type c4Builder (by decide) c4Call rfl).1
      (some "application/json"),
   (c4_multipart_suppresses_content_type c4Builder (by decide) c4Call rfl).2⟩

theorem length_ne_zero_iff (s : String) : s.length ≠ 0 ↔ s ≠ "" := by
  constructor
  · intro h he; exact h (he ▸ rfl)
  · intro h hl; exact h (String.ext (List.length_eq_zero.mp hl))

/-- C5: `resource()` yields the absent value on an empty body, a `Resource`
wrapping the decoded JSON on a non-empty body the decoder accepts, and the
decoder's parse error on a non-empty body it rejects. -/
theorem c5_resource_classification (parse : String → Option Json) (rr : RestResponse) :
    (rr.response.content = "" →
      RestResponse.resource parse rr = Except.ok none) ∧
    (∀ j, rr.response.content ≠ "" → parse rr.response.content = some j →
      RestResponse.resource parse rr = Except.ok (some ⟨j⟩)) ∧
    (rr.response.content ≠ "" → parse rr.response.content = none →
      RestResponse.resource parse rr = Except.error ParseFailure.parseError) := by
  refine ⟨?_, ?_, ?_⟩ <;> unfold RestResponse.resource
  · intro h; rw [h]; simp
  · intro j h hp
    rw [if_pos ((length_ne_zero_iff _).mpr h), hp]
  · intro h hp
    rw [if_pos ((length_ne_zero_iff _).mpr h), hp]

/-- A concrete stand-in for the external JSON decoder, accepting only the
two-character body of an empty JSON object. -/
def c5Parse (s : String) : Option Json :=
  if s == "\x7b\x7d" then some (Json.obj []) else none

theorem c5_witness :
    RestResponse.resource c5Parse ⟨⟨204, ""⟩⟩ = Except.ok none ∧
    RestResponse.resource c5Parse ⟨⟨200, "\x7b\x7d"⟩⟩ = Except.ok (some ⟨Json.obj []⟩) ∧
    RestResponse.resource c5Parse ⟨⟨200, "xy"⟩⟩ = Except.error ParseFailure.parseError :=
  ⟨(c5_resource_classification c5Parse ⟨⟨204, ""⟩⟩).1 rfl,
   (c5_resource_classification c5Parse ⟨⟨200, "\x7b\x7d"⟩⟩).2.1 (Json.obj []) (by decide) rfl,
   (c5_resource_classification c5Parse ⟨⟨200, "xy"⟩⟩).2.2 (by decide) rfl⟩

/-- C6: every chained call name outside the configuration operations and the
fixed verb list raises the attribute error naming that operation; it is
never silently ignored. -/
theorem c6_unknown_operation_raises (r : RestRequest) (name : String)
    (hcfg : name ∉ ["auth", "accept", "as"]) (hverb : name ∉ HTTP_VERBS) :
    r.getattr name = Except.error (ReqError.unknownOperation name) := by
  have hnv : ¬ (is_verb name = true) := by
    unfold is_verb
    intro h
    exact hverb (List.elem_iff.mp h)
  unfold RestRequest.getattr
  rw [if_neg hnv]

theorem c6_witness :
    (RestRequest.init "http://h").getattr "foobar" =
      Except.error (ReqError.unknownOperation "foobar") :=
  c6_unknown_operation_raises (RestRequest.init "http://h") "foobar"
    (by decide) (by decide)

def c7Builder : RestRequest :=
  { RestRequest.init "http://h" with
      verb := some "get", user := some "a", pwd := some "b" }

/-- C7 counterexample: a non-multipart execution that configured neither a
content type nor an accept type still dispatches headers holding a
content-type entry and an accept entry (each with the Python `None` value),
so the dispatched headers are not the Authorization entry alone. -/
theorem c7_counterexample :
    c7Builder.content_type = none ∧ c7Builder.accept_type = none ∧
    c7Builder.is_multipart_request = false ∧
    c7Builder.build_dispatch = Except.ok
      ⟨"get", "http://h",
       [("Authorization", some ("Basic " ++ b64encode "a:b")),
        ("content-type", none), ("accept", none)],
       none, none, none⟩ :=
  ⟨rfl, rfl, rfl, rfl⟩

/-- C7 amended: in every non-multipart execution the dispatched headers are
exactly the Authorization entry followed by a content-type entry and an
accept entry; the latter two hold the configured media types when `as_` or
`accept` was called and the Python `None` value otherwise. -/
theorem c7_headers_amended (r : RestRequest) (hm : r.is_multipart_request = false)
    (d : DispatchedCall) (hd : r.build_dispatch = Except.ok d) :
    ∃ a, d.headers =
      [("Authorization", some a),
       (HTTP_HEADER_CONTENT_TYPE, r.content_type),
       (HTTP_HEADER_ACCEPT, r.accept_type)] := by
  obtain ⟨v, hdr, hv, hh, hcase⟩ := (build_dispatch_ok_iff r d).mp hd
  obtain ⟨_, _, hl⟩ := (prepare_headers_ok_iff r hdr).mp hh
  have hdh : d.headers = hdr := by
    rcases hcase with ⟨_, hdis⟩ | ⟨_, hdis⟩ <;> rw [hdis]
  refine ⟨"Basic " ++ b64encode (r.user.getD "" ++ ":" ++ r.pwd.getD ""), ?_⟩
  rw [hdh, hl]
  simp [RestRequest.get_content_header, RestRequest.get_accept_header, hm]

def c7wBuilder : RestRequest :=
  { RestRequest.init "http://h" with
      verb := some "put", user := some "a", pwd := some "b",
      accept_type := some "application/json" }

def c7wCall : DispatchedCall :=
  ⟨"put", "http://h",
   [("Authorization", some ("Basic " ++ b64encode "a:b")),
    ("content-type", none), ("accept", some "application/json")],
   none, none, none⟩

theorem c7_witness :
    ∃ a, c7wCall.headers =
      [("Authorization", some a),
       (HTTP_HEADER_CONTENT_TYPE, c7wBuilder.content_type),
       (HTTP_HEADER_ACCEPT, c7wBuilder.accept_type)] :=
  c7_headers_amended c7wBuilder rfl c7wCall rfl

/-- C8: when no verb was ever selected, execution fails (the eager debug
formatting dereferences the unset verb) and no HTTP call is dispatched: the
result is the same error for every transport, and the dispatch build itself
already fails. -/
theorem c8_unset_verb_fails (r : RestRequest) (hv : r.verb = none)
    (transport : Transport) :
    RestRequest.request transport r = Except.error ReqError.verbNone ∧
    r.build_dispatch = Except.error ReqError.verbNone := by
  have hb : r.build_dispatch = Except.error ReqError.verbNone := by
    unfold RestRequest.build_dispatch
    rw [hv]
  exact ⟨by unfold RestRequest.request; rw [hb], hb⟩

theorem c8_witness :
    RestRequest.request (constTransport ⟨200, ""⟩) (RestRequest.init "http://h") =
      Except.error ReqError.verbNone :=
  (c8_unset_verb_fails (RestRequest.init "http://h") rfl (constTransport ⟨200, ""⟩)).1

/-- C9: setting credentials to an empty user or an empty password through
`auth` makes execution (with a selected verb) raise exactly the credential
error raised when credentials were never set: the truthiness check treats
empty strings as missing. -/
theorem c9_empty_credentials (r : RestRequest) (v : String) (hv : r.verb = some v)
    (u p : String) (hc : u = "" ∨ p = "") (transport : Transport) :
    RestRequest.request transport (r.auth u p) = Except.error ReqError.authError ∧
    RestRequest.request transport (r.auth u p) =
      RestRequest.request transport { r with user := none, pwd := none } := by
  have hc2 : truthyStr (r.auth u p).user = false ∨ truthyStr (r.auth u p).pwd = false := by
    rcases hc with h | h
    · exact Or.inl (by simp [RestRequest.auth, truthyStr, h])
    · exact Or.inr (by simp [RestRequest.auth, truthyStr, h])
  obtain ⟨_, hreq⟩ := build_dispatch_auth_error (r.auth u p) v hv hc2
  obtain ⟨_, hreq2⟩ := build_dispatch_auth_error { r with user := none, pwd := none } v hv
    (Or.inl rfl)
  exact ⟨hreq transport, by rw [hreq transport, hreq2 transport]⟩

theorem c9_witness :
    RestRequest.request (constTransport ⟨200, ""⟩)
      (({ RestRequest.init "http://h" with verb := some "get"} : RestRequest).auth "" "pw") =
      Except.error ReqError.authError :=
  (c9_empty_credentials { RestRequest.init "http://h" with verb := some "get" }
    "get" rfl "" "pw" (Or.inl rfl) (constTransport ⟨200, ""⟩)).1

/-- C10: each configuration operation yields the input builder with only its
own fields replaced: `auth` touches only user and password, `accept` only
the accept type, `as_` only the content type, a verb selection only the
verb; the target URL set at construction is preserved by all of them. -/
theorem c10_configuration_frame (r : RestRequest) (u p m1 m2 v : String)
    (hv : v ∈ HTTP_VERBS) :
    r.auth u p = { r with user := some u, pwd := some p } ∧
    r.accept m1 = { r with accept_type := some m1 } ∧
    r.as_ m2 = { r with content_type := some m2 } ∧
    r.getattr v = Except.ok { r with verb := some v } ∧
    (r.auth u p).href = r.href ∧ (r.accept m1).href = r.href ∧
    (r.as_ m2).href = r.href ∧ (r.auth u p).verb = r.verb ∧
    (r.accept m1).user = r.user ∧ (r.as_ m2).accept_type = r.accept_type := by
  refine ⟨rfl, rfl, rfl, ?_, rfl, rfl, rfl, rfl, rfl, rfl⟩
  unfold RestRequest.getattr
  rw [if_pos]
  unfold is_verb
  exact List.elem_iff.mpr hv

theorem c10_witness :
    (RestRequest.init "http://h").auth "a" "b" =
      { RestRequest.init "http://h" with user := some "a", pwd := some "b" } ∧
    (RestRequest.init "http://h").accept "m" =
      { RestRequest.init "http://h" with accept_type := some "m" } ∧
    (RestRequest.init "http://h").as_ "n" =
      { RestRequest.init "http://h" with content_type := some "n" } ∧
    (RestRequest.init "http://h").getattr "put" =
      Except.ok { RestRequest.init "http://h" with verb := some "put" } ∧
    ((RestRequest.init "http://h").auth "a" "b").href = (RestRequest.init "http://h").href ∧
    ((RestRequest.init "http://h").accept "m").href = (RestRequest.init "http://h").href ∧
    ((RestRequest.init "http://h").as_ "n").href = (RestRequest.init "http://h").href ∧
    ((RestRequest.init "http://h").auth "a" "b").verb = (RestRequest.init "http://h").verb ∧
    ((RestRequest.init "http://h").accept "m").user = (RestRequest.init "http://h").user ∧
    ((RestRequest.init "http://h").as_ "n").accept_type = (RestRequest.init "http://h").accept_type :=
  c10_configuration_frame (RestRequest.init "http://h") "a" "b" "m" "n" "put" (by decide)
